import Mathlib

/-!
USB-MIDI bridge firmware (main.c): interrupt dispatcher and activity scheduler.

A shallow embedding of `main.c`.  The file's global variables and the register
bits it touches form a `Machine`; the routines it calls but does not define
(USB stack, UART driver, timer helpers, the two pipelines) are parameters,
collected in `Collaborators`.  Every call, test and store made by the code of
`main.c` is also appended to a ghost trace, so that ordering and call-count
statements can be made about the code itself.
-/

namespace MidiUsb

/-! ## Data model -/

/-- Build configuration: the two macros tested by `#if defined(...)` in main.c
(both come from usb_config.h) and the constant `CONFIGURED_STATE` of the USB
stack headers. -/
structure Build where
  USB_INTERRUPT : Bool
  USB_POLLING : Bool
  CONFIGURED_STATE : Nat

/-- The cable number, `#define CABLENUM 0` at line 64. -/
def CABLENUM : Nat := 0

/-- The globals of main.c (lines 69-84), the USB stack variables and register
bits that main.c reads or writes, and the state `ext` of everything that lives
behind the collaborators. Bytes are naturals below 256. -/
structure Machine (σ : Type) where
  UsbRecBuffer1 : List Nat
  UsbRecBuffer2 : List Nat
  MidiData : List Nat
  CommonMidiData : List Nat
  USBTxHandle : Nat
  USBRxHandle : Nat
  msCounter : Nat
  ActSenzTime : Nat
  USBDeviceState : Nat
  USBSuspendControl : Bool
  TMR0IF : Bool
  LEDUSB : Bool
  ext : σ

/-- What the code of main.c does, step by step: the calls it makes, the two
tests it performs and the stores it executes. -/
inductive Event where
  | InitializeSystem
  | USBDeviceAttach
  | USBDeviceTasks
  | UartRxIntProcess
  | UartTxIntProcess
  | Timer0Compless
  | Timer0IrqAck
  | UsbToMidiProcess
  | MidiToUsbProcess
  | testTMR0IF
  | storeActSenzTime
  | readLinkState
  | SET_LEDUSB
  | CLR_LEDUSB
  deriving DecidableEq, Repr

/-- The routines main.c calls without defining them. Each is an arbitrary
state transformer: nothing is assumed about what a collaborator changes. -/
structure Collaborators (σ : Type) where
  InitializeSystem : Machine σ → Machine σ
  USBDeviceAttach : Machine σ → Machine σ
  USBDeviceTasks : Machine σ → Machine σ
  UartRxIntProcess : Machine σ → Machine σ
  UartTxIntProcess : Machine σ → Machine σ
  Timer0Compless : Machine σ → Machine σ
  Timer0IrqAck : Machine σ → Machine σ
  UsbToMidiProcess : Machine σ → Machine σ
  MidiToUsbProcess : Machine σ → Machine σ

/-- Machine state together with the ghost trace of what main.c has done. -/
structure Sys (σ : Type) where
  m : Machine σ
  trace : List Event

variable {σ : Type}

/-- Perform one step of main.c: log it and apply its effect. -/
def step (e : Event) (f : Machine σ → Machine σ) (s : Sys σ) : Sys σ :=
  { m := f s.m, trace := s.trace ++ [e] }

/-- A test made by main.c: logged, no effect on the machine. -/
def observe (e : Event) (s : Sys σ) : Sys σ :=
  { m := s.m, trace := s.trace ++ [e] }

/-! ## Interrupt dispatcher (main.c lines 117-141) -/

/-- Lines 120-125: the optional USB servicing call and the two UART calls. -/
def isrService (b : Build) (c : Collaborators σ) (s : Sys σ) : Sys σ :=
  let s1 := if b.USB_INTERRUPT then step .USBDeviceTasks c.USBDeviceTasks s else s
  let s2 := step .UartRxIntProcess c.UartRxIntProcess s1
  step .UartTxIntProcess c.UartTxIntProcess s2

/-- Lines 129-131: the body of `if(INTCONbits.TMR0IF)`. -/
def isrTimer (c : Collaborators σ) (s : Sys σ) : Sys σ :=
  let s1 := step .Timer0Compless c.Timer0Compless s
  let s2 := step .Timer0IrqAck c.Timer0IrqAck s1
  step .storeActSenzTime (fun m => { m with ActSenzTime := 1 }) s2

/-- The routine `void YourHighPriorityISRCode()` (lines 118-133): service, then
test the timer-overflow flag in the state the servicing calls left. -/
def YourHighPriorityISRCode (b : Build) (c : Collaborators σ) (s : Sys σ) : Sys σ :=
  let s1 := observe .testTMR0IF (isrService b c s)
  if s1.m.TMR0IF then isrTimer c s1 else s1

/-- The routine `void YourLowPriorityISRCode()` (lines 139-141): empty body. -/
def YourLowPriorityISRCode (s : Sys σ) : Sys σ := s

/-! ## Activity scheduler (main.c lines 148-176) -/

/-- The condition of line 166:
`(USBDeviceState == CONFIGURED_STATE) && (!USBSuspendControl)`. -/
def linkUp (b : Build) (m : Machine σ) : Bool :=
  m.USBDeviceState == b.CONFIGURED_STATE && !m.USBSuspendControl

/-- Lines 160-163: the polling call that opens an iteration when USB_POLLING is
defined. The link state is read in the state this returns. -/
def loopPoll (b : Build) (c : Collaborators σ) (s : Sys σ) : Sys σ :=
  if b.USB_POLLING then step .USBDeviceTasks c.USBDeviceTasks s else s

/-- Lines 168-170: the LINKED branch. -/
def loopLinked (c : Collaborators σ) (s : Sys σ) : Sys σ :=
  let s1 := step .SET_LEDUSB (fun m => { m with LEDUSB := true }) s
  let s2 := step .UsbToMidiProcess c.UsbToMidiProcess s1
  step .MidiToUsbProcess c.MidiToUsbProcess s2

/-- Line 173: the NOT LINKED branch. -/
def loopIdle (s : Sys σ) : Sys σ :=
  step .CLR_LEDUSB (fun m => { m with LEDUSB := false }) s

/-- One pass through the body of `while(1)` (lines 159-175). -/
def mainLoopBody (b : Build) (c : Collaborators σ) (s : Sys σ) : Sys σ :=
  let s1 := observe .readLinkState (loopPoll b c s)
  if linkUp b s1.m then loopLinked c s1 else loopIdle s1

/-- Lines 150-154: what main() does before it enters the loop. -/
def mainEntry (b : Build) (c : Collaborators σ) (s : Sys σ) : Sys σ :=
  let s1 := step .InitializeSystem c.InitializeSystem s
  if b.USB_INTERRUPT then step .USBDeviceAttach c.USBDeviceAttach s1 else s1

/-- Consecutive iterations of `while(1)`. The loop never exits, so a run is
given by what happens around it: `ps` holds, for each iteration, the change the
interrupt context and the hardware made to the machine since the previous one. -/
def mainLoop (b : Build) (c : Collaborators σ) :
    List (Machine σ → Machine σ) → Sys σ → Sys σ
  | [], s => s
  | p :: ps, s => mainLoop b c ps (mainLoopBody b c { s with m := p s.m })

/-- The routine `void main(void)` run for as many iterations as `ps` is long. -/
def main (b : Build) (c : Collaborators σ) (ps : List (Machine σ → Machine σ))
    (s : Sys σ) : Sys σ :=
  mainLoop b c ps (mainEntry b c s)

/-- The link state (USBDeviceState, USBSuspendControl) read at line 166 by each
iteration of the run `mainLoop b c ps s`, in order. -/
def linkReadings (b : Build) (c : Collaborators σ) :
    List (Machine σ → Machine σ) → Sys σ → List (Nat × Bool)
  | [], _ => []
  | p :: ps, s =>
    let s0 : Sys σ := { s with m := p s.m }
    let r := (loopPoll b c s0).m
    (r.USBDeviceState, r.USBSuspendControl) :: linkReadings b c ps (mainLoopBody b c s0)

/-- The link-state test of line 166 applied to a reading. -/
def readingUp (b : Build) (r : Nat × Bool) : Bool :=
  r.1 == b.CONFIGURED_STATE && !r.2

/-- The pipeline calls of a trace, in order. -/
def pipelineCalls (t : List Event) : List Event :=
  t.filter (fun e => e == .UsbToMidiProcess || e == .MidiToUsbProcess)

/-! ## Packet codec

The codec is not defined in main.c: the packet type comes from
usb_function_midi.h and the translation is done inside the two pipelines, of
which main.c holds the prototypes only. -/

/-- Modelled from the spec: the MIDI Event Packet of the data model, a fixed
4-byte record with a 4-bit cable number, a 4-bit code index and 3 data bytes
(the type USB_AUDIO_MIDI_EVENT_PACKET of `MidiData` is declared in
usb_function_midi.h, which is not among the sources). -/
structure Packet where
  cable : Nat
  code_index : Nat
  d0 : Nat
  d1 : Nat
  d2 : Nat
  deriving DecidableEq, Repr

/-- Modelled from the spec: the packet on the wire, "4-byte: cable+code-index,
byte0, byte1, byte2" (the layout is fixed by usb_function_midi.h, not among the
sources). -/
def Packet.bytes (p : Packet) : List Nat :=
  [p.cable * 16 + p.code_index, p.d0, p.d1, p.d2]

/-- Modelled from the spec: "data length implied by code_index". The spec names
the USB-MIDI class format as the authoritative contract; its code index table
gives the lengths, with 0 and 1 reserved (the table is not in the sources). -/
def codeIndexLength : Nat → Nat
  | 0x2 => 2
  | 0x3 => 3
  | 0x4 => 3
  | 0x5 => 1
  | 0x6 => 2
  | 0x7 => 3
  | 0x8 => 3
  | 0x9 => 3
  | 0xA => 3
  | 0xB => 3
  | 0xC => 2
  | 0xD => 2
  | 0xE => 3
  | 0xF => 1
  | _ => 0

/-- Modelled from the spec: `decode(packet) -> byte_run`, the 1-3 raw MIDI bytes
a packet encodes, or no byte for a reserved or unrecognised code index (the
decoder lives in UsbToMidiProcess, whose body is not among the sources). -/
def decode (p : Packet) : List Nat :=
  [p.d0, p.d1, p.d2].take (codeIndexLength p.code_index)

/-- Modelled from the spec: decoding the packets of a transfer "in order" (part
of UsbToMidiProcess, whose body is not among the sources). -/
def decodeAll : List Packet → List Nat
  | [] => []
  | p :: ps => decode p ++ decodeAll ps

/-- Modelled from the spec: decoding a transfer buffer as it arrives on the
wire, 4 bytes per packet, the first byte holding the cable number in its high
half and the code index in its low half (part of UsbToMidiProcess, whose body
is not among the sources). -/
def decodeWire : List Nat → List Nat
  | h :: x :: y :: z :: rest => decode ⟨h / 16, h % 16, x, y, z⟩ ++ decodeWire rest
  | _ => []

/-- Modelled from the spec: the number of bytes, status byte included, of the
message a status byte opens ("status byte plus 0-2 data bytes"); 0 for a byte
that opens no such message (MIDI framing is not defined in the sources). -/
def messageLength (status : Nat) : Nat :=
  if status < 0x80 then 0
  else if status < 0xC0 then 3
  else if status < 0xE0 then 2
  else if status < 0xF0 then 3
  else if status = 0xF1 ∨ status = 0xF3 then 2
  else if status = 0xF2 then 3
  else if status = 0xF6 then 1
  else if 0xF8 ≤ status ∧ status < 0x100 then 1
  else 0

/-- Modelled from the spec: the code index, "message-type tag", of the message a
status byte opens, after the USB-MIDI class table (not in the sources). -/
def codeIndexOf (status : Nat) : Nat :=
  if status < 0xF0 then status / 16
  else if status = 0xF1 ∨ status = 0xF3 then 0x2
  else if status = 0xF2 then 0x3
  else if 0xF8 ≤ status then 0xF
  else 0x5

/-- Modelled from the spec: the states of the encoder's state machine, "IDLE,
EXPECT_DATA1, EXPECT_DATA2, IN_SYSEX" (its code is not among the sources). -/
inductive Phase where
  | IDLE
  | EXPECT_DATA1
  | EXPECT_DATA2
  | IN_SYSEX
  deriving DecidableEq, Repr

/-- Modelled from the spec: what the encoder retains across calls: its state,
the running status, the first data byte of a 3-byte message and the bytes of a
SysEx chunk not yet emitted (its code is not among the sources). -/
structure Codec where
  phase : Phase
  status : Nat
  data1 : Nat
  sysex : List Nat
  deriving DecidableEq, Repr

/-- Modelled from the spec: the encoder at rest (not among the sources). -/
def Codec.idle : Codec :=
  { phase := .IDLE, status := 0, data1 := 0, sysex := [] }

/-- Modelled from the spec: the encoder after a complete message: a channel
message leaves its status running, anything else returns to IDLE (not among
the sources). -/
def Codec.afterMessage (status : Nat) : Codec :=
  if status < 0xF0 then { phase := .EXPECT_DATA1, status := status, data1 := 0, sysex := [] }
  else Codec.idle

/-- Modelled from the spec: the packet that closes a SysEx stream, by the number
of bytes it carries (USB-MIDI class table, not in the sources). -/
def sysexEnd (cable : Nat) : List Nat → Packet
  | [x, y, z] => ⟨cable, 0x7, x, y, z⟩
  | [x, y] => ⟨cable, 0x6, x, y, 0⟩
  | [x] => ⟨cable, 0x5, x, 0, 0⟩
  | _ => ⟨cable, 0x5, 0xF7, 0, 0⟩

/-- Modelled from the spec: one step of `encode`, fed the serial stream one byte
at a time. A realtime byte is its own single-byte packet and leaves the state
alone; a message is emitted as a single packet only once complete; a SysEx run
is chunked at the 3-byte packet payload (the encoder lives in MidiToUsbProcess,
whose body is not among the sources). -/
def encodeByte (cable : Nat) (c : Codec) (b : Nat) : Codec × List Packet :=
  if 0xF8 ≤ b then (c, [⟨cable, 0xF, b, 0, 0⟩])
  else if b = 0xF0 then
    ({ phase := .IN_SYSEX, status := 0, data1 := 0, sysex := [0xF0] }, [])
  else if b = 0xF7 then (Codec.idle, [sysexEnd cable (c.sysex ++ [0xF7])])
  else if 0x80 ≤ b then
    match messageLength b with
    | 0 => (Codec.idle, [])
    | 1 => (Codec.idle, [⟨cable, codeIndexOf b, b, 0, 0⟩])
    | _ => ({ phase := .EXPECT_DATA1, status := b, data1 := 0, sysex := [] }, [])
  else
    match c.phase with
    | .IDLE => (c, [])
    | .EXPECT_DATA1 =>
      if messageLength c.status = 2 then
        (Codec.afterMessage c.status, [⟨cable, codeIndexOf c.status, c.status, b, 0⟩])
      else ({ c with phase := .EXPECT_DATA2, data1 := b }, [])
    | .EXPECT_DATA2 =>
      (Codec.afterMessage c.status, [⟨cable, codeIndexOf c.status, c.status, c.data1, b⟩])
    | .IN_SYSEX =>
      match c.sysex with
      | [x, y] => ({ c with sysex := [] }, [⟨cable, 0x4, x, y, b⟩])
      | xs => ({ c with sysex := xs ++ [b] }, [])

/-- Modelled from the spec: the encoder run over successive serial bytes,
collecting the packets it emits (not among the sources). -/
def encodeRun (cable : Nat) : Codec → List Nat → Codec × List Packet
  | c, [] => (c, [])
  | c, b :: bs =>
    let r := encodeByte cable c b
    let rs := encodeRun cable r.1 bs
    (rs.1, r.2 ++ rs.2)

/-- Modelled from the spec: `encode(byte_run, cable)`, the packets for a
complete message presented to an encoder at rest (not among the sources). -/
def encode (m : List Nat) (cable : Nat) : List Packet :=
  (encodeRun cable Codec.idle m).2

/-- Modelled from the spec: a valid MIDI message of 1 to 3 bytes: a status byte
followed by exactly the data bytes (below 0x80) it calls for, or a complete
SysEx message that short (MIDI framing is not defined in the sources). -/
def validMessage : List Nat → Bool
  | [s] => decide (messageLength s = 1)
  | [s, d] =>
    (decide (messageLength s = 2) && decide (d < 0x80)) || (s == 0xF0 && d == 0xF7)
  | [s, d, e] =>
    (decide (messageLength s = 3) && decide (d < 0x80) && decide (e < 0x80))
      || (s == 0xF0 && decide (d < 0x80) && e == 0xF7)
  | _ => false

/-! ## Device-to-host pipeline

`MidiToUsbProcess` is declared at line 97 of main.c and called at line 170; its
body is not among the sources. -/

/-- Modelled from the spec: the IN side of the USB Transport Adapter as the mock
transport of the testable properties, one "that rejects double-submission": it
records the buffers it accepted and counts the submissions it refused (the USB
stack is not among the sources). -/
structure InTransport where
  inFlight : Bool
  accepted : List (List Nat)
  rejected : Nat
  deriving DecidableEq, Repr

/-- Modelled from the spec: "submit buffer for IN transfer" on the mock
transport (the USB stack is not among the sources). -/
def InTransport.submit (buf : List Nat) (t : InTransport) : InTransport :=
  if t.inFlight then { t with rejected := t.rejected + 1 }
  else { inFlight := true, accepted := t.accepted ++ [buf], rejected := t.rejected }

/-- Modelled from the spec: the stack hands the buffer back at "transfer
complete" (the USB stack is not among the sources). -/
def InTransport.complete (t : InTransport) : InTransport :=
  { t with inFlight := false }

/-- Modelled from the spec: the state behind the Device-to-Host pipeline: the
serial adapter's inbound ring buffer, the encoder, the IN transfer staging
buffer, the "MIDI IN activity" indicator and the IN transport (none of them is
declared in main.c). -/
structure Bridge where
  serialIn : List Nat
  codec : Codec
  staging : List Nat
  midiInLed : Bool
  usbIn : InTransport
  deriving DecidableEq, Repr

/-- Modelled from the spec: the "transfer complete" query on `USBTxHandle`: a
null handle (the initial value at line 79) has no transfer, any other handle is
busy while its transfer is in flight (the query is a macro of the USB stack,
not among the sources). -/
def handleBusy (m : Machine Bridge) : Bool :=
  m.USBTxHandle != 0 && m.ext.usbIn.inFlight

/-- Modelled from the spec: "feed each available byte to the Packet Codec's
encode state machine; each packet produced is appended to an IN transfer
staging buffer", stopping when the buffer "reaches 64 bytes"; the activity
indicator toggles "on each packet enqueued". The first argument is the ring
buffer's content (part of MidiToUsbProcess, not among the sources). -/
def stageBytes : List Nat → Bridge → Bridge
  | [], br => { br with serialIn := [] }
  | b :: rest, br =>
    if 64 ≤ br.staging.length then { br with serialIn := b :: rest }
    else
      let r := encodeByte CABLENUM br.codec b
      stageBytes rest
        { br with
          codec := r.1
          staging := br.staging ++ (r.2.map Packet.bytes).flatten
          midiInLed := if r.2.isEmpty then br.midiInLed else !br.midiInLed }

/-- Modelled from the spec: one call of the Device-to-Host Pipeline. After
staging, "when the staging buffer is full (reaches 64 bytes) OR a flush
condition is met (no further bytes pending and at least one packet is staged),
submit the buffer as a USB IN transfer if and only if the previous IN transfer
has completed"; otherwise "hold the completed packets and resume staging on the
next loop iteration" (the body of MidiToUsbProcess is not among the sources). -/
def MidiToUsbProcessSpec (m : Machine Bridge) : Machine Bridge :=
  let br := stageBytes m.ext.serialIn m.ext
  let full := decide (64 ≤ br.staging.length)
  let flush := br.serialIn.isEmpty && !br.staging.isEmpty
  if (full || flush) && !handleBusy m then
    let t := br.usbIn.submit br.staging
    { m with USBTxHandle := t.accepted.length, ext := { br with staging := [], usbIn := t } }
  else { m with ext := br }

/-- The collaborators used to exercise the Device-to-Host pipeline under the
main loop: `MidiToUsbProcess` is the pipeline above, the others do nothing
(what the interrupt context and the hardware do is a `Happening`). -/
def bridgeCollaborators : Collaborators Bridge :=
  { InitializeSystem := id
    USBDeviceAttach := id
    USBDeviceTasks := id
    UartRxIntProcess := id
    UartTxIntProcess := id
    Timer0Compless := id
    Timer0IrqAck := id
    UsbToMidiProcess := id
    MidiToUsbProcess := MidiToUsbProcessSpec }

/-- Modelled from the spec: what can happen to the bridge: the serial adapter
receives a byte, the USB stack completes the IN transfer, the link state
changes, or the main loop makes one iteration (the asynchronous side is not
among the sources). -/
inductive Happening where
  | serialByte (b : Nat)
  | inTransferDone
  | linkChange (state : Nat) (suspend : Bool)
  | loopIteration
  deriving DecidableEq, Repr

/-- The effect of one happening; a loop iteration is the body of `while(1)` of
main.c run with `bridgeCollaborators`. -/
def happen (b : Build) : Happening → Sys Bridge → Sys Bridge
  | .serialByte x, s =>
    { s with m := { s.m with ext := { s.m.ext with serialIn := s.m.ext.serialIn ++ [x] } } }
  | .inTransferDone, s =>
    { s with m := { s.m with ext := { s.m.ext with usbIn := s.m.ext.usbIn.complete } } }
  | .linkChange st su, s =>
    { s with m := { s.m with USBDeviceState := st, USBSuspendControl := su } }
  | .loopIteration, s => mainLoopBody b bridgeCollaborators s

/-- A run of the bridge. -/
def bridgeRun (b : Build) : List Happening → Sys Bridge → Sys Bridge
  | [], s => s
  | h :: hs, s => bridgeRun b hs (happen b h s)

/-- The bridge at power-up: the globals as main.c initialises them
(`USBTxHandle = 0`, `USBRxHandle = 0`, `ActSenzTime = 0`), everything else
cleared, nothing staged and no transfer submitted. -/
def bridgeInit : Sys Bridge :=
  { m :=
      { UsbRecBuffer1 := List.replicate 64 0
        UsbRecBuffer2 := List.replicate 64 0
        MidiData := [0, 0, 0, 0]
        CommonMidiData := [0, 0, 0, 0]
        USBTxHandle := 0
        USBRxHandle := 0
        msCounter := 0
        ActSenzTime := 0
        USBDeviceState := 0
        USBSuspendControl := false
        TMR0IF := false
        LEDUSB := false
        ext :=
          { serialIn := []
            codec := Codec.idle
            staging := []
            midiInLed := false
            usbIn := { inFlight := false, accepted := [], rejected := 0 } } }
    trace := [] }

/-! ## Auxiliary definitions for the statements -/

/-- What was appended to the trace between `s` and a later state `t`. -/
def emitted (s t : Sys σ) : List Event :=
  t.trace.drop s.trace.length

/-- A timer-overflow interrupt: the hardware raises TMR0IF and the high-priority
routine runs. -/
def timerOverflow (b : Build) (c : Collaborators σ) (s : Sys σ) : Sys σ :=
  YourHighPriorityISRCode b c { s with m := { s.m with TMR0IF := true } }

/-- `k` timer-overflow interrupts in a row, nothing else touching the machine in
between. -/
def timerOverflows (b : Build) (c : Collaborators σ) : Nat → Sys σ → Sys σ
  | 0, s => s
  | k + 1, s => timerOverflows b c k (timerOverflow b c s)

/-- A build that services USB from the interrupt routine. -/
def interruptBuild : Build :=
  { USB_INTERRUPT := true, USB_POLLING := false, CONFIGURED_STATE := 0x20 }

/-- A build that services USB by polling from the main loop. -/
def pollingBuild : Build :=
  { USB_INTERRUPT := false, USB_POLLING := true, CONFIGURED_STATE := 0x20 }

/-- Collaborators for concrete evaluation: `Timer0IrqAck` clears TMR0IF, all the
others leave the machine alone. -/
def quietCollaborators : Collaborators Unit :=
  { InitializeSystem := id
    USBDeviceAttach := id
    USBDeviceTasks := id
    UartRxIntProcess := id
    UartTxIntProcess := id
    Timer0Compless := id
    Timer0IrqAck := fun m => { m with TMR0IF := false }
    UsbToMidiProcess := id
    MidiToUsbProcess := id }

/-- A concrete machine: link state `link`, suspend bit `susp`, timer-overflow
flag `tmr`, tick `tick`, LED `led`; handles and buffers cleared. -/
def machineWith (link : Nat) (susp tmr : Bool) (tick : Nat) (led : Bool) : Machine Unit :=
  { UsbRecBuffer1 := List.replicate 64 0
    UsbRecBuffer2 := List.replicate 64 0
    MidiData := [0, 0, 0, 0]
    CommonMidiData := [0, 0, 0, 0]
    USBTxHandle := 0
    USBRxHandle := 0
    msCounter := 0
    ActSenzTime := tick
    USBDeviceState := link
    USBSuspendControl := susp
    TMR0IF := tmr
    LEDUSB := led
    ext := () }

/-- A configured, running device with a timer overflow pending and tick 1. -/
def linkedSys : Sys Unit :=
  { m := machineWith 0x20 false true 1 false, trace := [] }

/-- A configured but suspended device, LED lit, no timer overflow pending,
tick 7. -/
def suspendedSys : Sys Unit :=
  { m := machineWith 0x20 true false 7 true, trace := [] }

/-- The steps of one iteration of `while(1)`, by build and by the outcome of the
link-state test of line 166. -/
def iterationEvents (b : Build) (up : Bool) : List Event :=
  (if b.USB_POLLING then [Event.USBDeviceTasks] else []) ++ [Event.readLinkState] ++
    (if up then [Event.SET_LEDUSB, Event.UsbToMidiProcess, Event.MidiToUsbProcess]
     else [Event.CLR_LEDUSB])

/-- The change that makes the link state read `r`: the USB stack stores the
device state and the suspend bit. -/
def setLink (r : Nat × Bool) (m : Machine σ) : Machine σ :=
  { m with USBDeviceState := r.1, USBSuspendControl := r.2 }

/-- What holds of the bridge in every state it reaches: the mock transport has
refused nothing, and a transfer is in flight only on a handle that is not
null. -/
def bridgeInv (m : Machine Bridge) : Prop :=
  m.ext.usbIn.rejected = 0 ∧ (m.ext.usbIn.inFlight = true → m.USBTxHandle ≠ 0)

/-! ## Basic facts about traces -/

theorem emitted_of_trace {s t : Sys σ} {xs : List Event} (h : t.trace = s.trace ++ xs) :
    emitted s t = xs := by
  simp [emitted, h]

theorem isrService_trace (b : Build) (c : Collaborators σ) (s : Sys σ) :
    (isrService b c s).trace =
      s.trace ++ ((if b.USB_INTERRUPT then [Event.USBDeviceTasks] else []) ++
        [Event.UartRxIntProcess, Event.UartTxIntProcess]) := by
  cases hb : b.USB_INTERRUPT <;> simp [isrService, step, hb]

theorem isr_trace (b : Build) (c : Collaborators σ) (s : Sys σ) :
    (YourHighPriorityISRCode b c s).trace =
      s.trace ++ ((if b.USB_INTERRUPT then [Event.USBDeviceTasks] else []) ++
        [Event.UartRxIntProcess, Event.UartTxIntProcess, Event.testTMR0IF] ++
        (if (isrService b c s).m.TMR0IF then
          [Event.Timer0Compless, Event.Timer0IrqAck, Event.storeActSenzTime] else [])) := by
  cases hf : (isrService b c s).m.TMR0IF <;>
    simp [YourHighPriorityISRCode, observe, isrTimer, step, hf, isrService_trace]

theorem loopPoll_trace (b : Build) (c : Collaborators σ) (s : Sys σ) :
    (loopPoll b c s).trace =
      s.trace ++ (if b.USB_POLLING then [Event.USBDeviceTasks] else []) := by
  cases hb : b.USB_POLLING <;> simp [loopPoll, step, hb]

theorem mainLoopBody_trace (b : Build) (c : Collaborators σ) (s : Sys σ) :
    (mainLoopBody b c s).trace =
      s.trace ++ ((if b.USB_POLLING then [Event.USBDeviceTasks] else []) ++
        [Event.readLinkState] ++
        (if linkUp b (loopPoll b c s).m then
          [Event.SET_LEDUSB, Event.UsbToMidiProcess, Event.MidiToUsbProcess]
        else [Event.CLR_LEDUSB])) := by
  cases hl : linkUp b (loopPoll b c s).m <;>
    simp [mainLoopBody, observe, loopLinked, loopIdle, step, hl, loopPoll_trace]

theorem linkUp_iff (b : Build) (m : Machine σ) :
    linkUp b m = true ↔ m.USBDeviceState = b.CONFIGURED_STATE ∧ m.USBSuspendControl = false := by
  simp [linkUp]

theorem mainLoopBody_machine (b : Build) (c : Collaborators σ) (s : Sys σ) :
    (mainLoopBody b c s).m =
      if linkUp b (loopPoll b c s).m then
        c.MidiToUsbProcess (c.UsbToMidiProcess { (loopPoll b c s).m with LEDUSB := true })
      else { (loopPoll b c s).m with LEDUSB := false } := by
  cases hl : linkUp b (loopPoll b c s).m <;>
    simp [mainLoopBody, observe, loopLinked, loopIdle, step, hl]

/-! ## The activity scheduler -/

/-- C1: in an iteration of the main loop that reads USBDeviceState equal to
CONFIGURED_STATE and USBSuspendControl false, the code sets LEDUSB to 1, then
calls UsbToMidiProcess once, then MidiToUsbProcess once, and makes no other
pipeline call: after the optional polling call the iteration does exactly
read, SET(LEDUSB), UsbToMidiProcess, MidiToUsbProcess, and the machine it leaves
is the one the two pipelines produce from the machine with the LED lit. -/
theorem C1_linked_iteration (b : Build) (c : Collaborators σ) (s : Sys σ)
    (hstate : (loopPoll b c s).m.USBDeviceState = b.CONFIGURED_STATE)
    (hsusp : (loopPoll b c s).m.USBSuspendControl = false) :
    emitted s (mainLoopBody b c s) =
        (if b.USB_POLLING then [Event.USBDeviceTasks] else []) ++
          [Event.readLinkState, Event.SET_LEDUSB, Event.UsbToMidiProcess,
            Event.MidiToUsbProcess]
      ∧ (emitted s (mainLoopBody b c s)).count Event.UsbToMidiProcess = 1
      ∧ (emitted s (mainLoopBody b c s)).count Event.MidiToUsbProcess = 1
      ∧ (mainLoopBody b c s).m =
          c.MidiToUsbProcess
            (c.UsbToMidiProcess { (loopPoll b c s).m with LEDUSB := true }) := by
  have hl : linkUp b (loopPoll b c s).m = true := (linkUp_iff b _).2 ⟨hstate, hsusp⟩
  have ht := mainLoopBody_trace b c s
  rw [hl] at ht
  have he := emitted_of_trace ht
  refine ⟨?_, ?_, ?_, ?_⟩
  · rw [he]; cases b.USB_POLLING <;> simp
  · rw [he]; cases b.USB_POLLING <;> decide
  · rw [he]; cases b.USB_POLLING <;> decide
  · simp [mainLoopBody, observe, loopLinked, step, hl]

/-- Witness for C1: a configured, running device under the polling build. -/
theorem C1_linked_iteration_witness :
    (loopPoll pollingBuild quietCollaborators linkedSys).m.USBDeviceState
        = pollingBuild.CONFIGURED_STATE
      ∧ (loopPoll pollingBuild quietCollaborators linkedSys).m.USBSuspendControl = false
      ∧ emitted linkedSys (mainLoopBody pollingBuild quietCollaborators linkedSys) =
          [Event.USBDeviceTasks, Event.readLinkState, Event.SET_LEDUSB,
            Event.UsbToMidiProcess, Event.MidiToUsbProcess] :=
  ⟨rfl, rfl, (C1_linked_iteration pollingBuild quietCollaborators linkedSys rfl rfl).1⟩

/-- C2: in an iteration of the main loop that reads USBDeviceState different
from CONFIGURED_STATE, or USBSuspendControl true, no pipeline is called, LEDUSB
is 0 afterwards, and the code of the iteration changes nothing else: the
machine it leaves is the one in which the link state was read, with LEDUSB
cleared. Without USB_POLLING that is the machine at the start of the iteration;
with it, any part of the state that the polling call USBDeviceTasks leaves
alone is unchanged by the iteration. -/
theorem C2_idle_iteration (b : Build) (c : Collaborators σ) (s : Sys σ)
    (hidle : (loopPoll b c s).m.USBDeviceState ≠ b.CONFIGURED_STATE
      ∨ (loopPoll b c s).m.USBSuspendControl = true) :
    emitted s (mainLoopBody b c s) =
        (if b.USB_POLLING then [Event.USBDeviceTasks] else []) ++
          [Event.readLinkState, Event.CLR_LEDUSB]
      ∧ Event.UsbToMidiProcess ∉ emitted s (mainLoopBody b c s)
      ∧ Event.MidiToUsbProcess ∉ emitted s (mainLoopBody b c s)
      ∧ (mainLoopBody b c s).m.LEDUSB = false
      ∧ (mainLoopBody b c s).m = { (loopPoll b c s).m with LEDUSB := false }
      ∧ (b.USB_POLLING = false → (mainLoopBody b c s).m = { s.m with LEDUSB := false })
      ∧ (∀ (α : Type) (view : Machine σ → α),
          (∀ m x, view { m with LEDUSB := x } = view m) →
          (∀ m, view (c.USBDeviceTasks m) = view m) →
          view (mainLoopBody b c s).m = view s.m) := by
  have hl : linkUp b (loopPoll b c s).m = false := by
    cases h : linkUp b (loopPoll b c s).m
    · rfl
    · rcases (linkUp_iff b _).1 h with ⟨h1, h2⟩
      rcases hidle with h3 | h3
      · exact absurd h1 h3
      · rw [h2] at h3; cases h3
  have ht := mainLoopBody_trace b c s
  rw [hl] at ht
  have he := emitted_of_trace ht
  have hm : (mainLoopBody b c s).m = { (loopPoll b c s).m with LEDUSB := false } := by
    simp [mainLoopBody, observe, loopIdle, step, hl]
  refine ⟨?_, ?_, ?_, ?_, hm, ?_, ?_⟩
  · rw [he]; cases b.USB_POLLING <;> simp
  · rw [he]; cases b.USB_POLLING <;> decide
  · rw [he]; cases b.USB_POLLING <;> decide
  · rw [hm]
  · intro hb
    rw [hm]
    simp [loopPoll, hb]
  · intro α view hled husb
    rw [hm, hled]
    cases hb : b.USB_POLLING
    · simp [loopPoll, hb]
    · simp [loopPoll, hb, step, husb]

/-- Witness for C2: a configured but suspended device, LED lit. Under the
interrupt build the iteration only clears the LED; under the polling build the
tick, which the polling call leaves alone, is unchanged. -/
theorem C2_idle_iteration_witness :
    ((loopPoll interruptBuild quietCollaborators suspendedSys).m.USBDeviceState
          ≠ interruptBuild.CONFIGURED_STATE
        ∨ (loopPoll interruptBuild quietCollaborators suspendedSys).m.USBSuspendControl = true)
      ∧ (mainLoopBody interruptBuild quietCollaborators suspendedSys).m =
          { suspendedSys.m with LEDUSB := false }
      ∧ (mainLoopBody pollingBuild quietCollaborators suspendedSys).m.ActSenzTime =
          suspendedSys.m.ActSenzTime :=
  ⟨Or.inr rfl,
    (C2_idle_iteration interruptBuild quietCollaborators suspendedSys (Or.inr rfl)).2.2.2.2.2.1 rfl,
    (C2_idle_iteration pollingBuild quietCollaborators suspendedSys (Or.inr rfl)).2.2.2.2.2.2
      Nat (fun m => m.ActSenzTime) (fun _ _ => rfl) (fun _ => rfl)⟩

/-! ## The interrupt dispatcher -/

/-- C3, counterexample: in a build without USB_INTERRUPT an invocation of the
high-priority routine starts with UartRxIntProcess and never services the USB
stack. -/
theorem C3_counterexample :
    emitted linkedSys (YourHighPriorityISRCode pollingBuild quietCollaborators linkedSys) =
        [Event.UartRxIntProcess, Event.UartTxIntProcess, Event.testTMR0IF,
          Event.Timer0Compless, Event.Timer0IrqAck, Event.storeActSenzTime]
      ∧ Event.USBDeviceTasks ∉
          emitted linkedSys (YourHighPriorityISRCode pollingBuild quietCollaborators linkedSys) := by
  decide

/-- C3 (amended): every invocation of the high-priority routine does, in this
order: USBDeviceTasks when the build defines USB_INTERRUPT (nothing otherwise),
UartRxIntProcess, UartTxIntProcess, the test of TMR0IF, and, only when that
test finds the flag set, the timer handling. The two UART routines are called
exactly once each, USBDeviceTasks once or not at all according to the build.
The calls are really made, in that order: the flag is read in the machine that
UartTxIntProcess returned, itself run on what UartRxIntProcess returned, itself
run on what USBDeviceTasks returned (on the entry machine without
USB_INTERRUPT); and the machine the routine leaves is that one, passed through
Timer0Compless, Timer0IrqAck and the store of 1 when the flag was found set. -/
theorem C3_isr_order (b : Build) (c : Collaborators σ) (s : Sys σ) :
    emitted s (YourHighPriorityISRCode b c s) =
        (if b.USB_INTERRUPT then [Event.USBDeviceTasks] else []) ++
          [Event.UartRxIntProcess, Event.UartTxIntProcess, Event.testTMR0IF] ++
          (if (isrService b c s).m.TMR0IF then
            [Event.Timer0Compless, Event.Timer0IrqAck, Event.storeActSenzTime] else [])
      ∧ (emitted s (YourHighPriorityISRCode b c s)).count Event.UartRxIntProcess = 1
      ∧ (emitted s (YourHighPriorityISRCode b c s)).count Event.UartTxIntProcess = 1
      ∧ (emitted s (YourHighPriorityISRCode b c s)).count Event.USBDeviceTasks =
          (if b.USB_INTERRUPT then 1 else 0)
      ∧ (emitted s (YourHighPriorityISRCode b c s)).count Event.testTMR0IF = 1
      ∧ (isrService b c s).m =
          c.UartTxIntProcess
            (c.UartRxIntProcess (if b.USB_INTERRUPT then c.USBDeviceTasks s.m else s.m))
      ∧ (YourHighPriorityISRCode b c s).m =
          (if (c.UartTxIntProcess
                (c.UartRxIntProcess
                  (if b.USB_INTERRUPT then c.USBDeviceTasks s.m else s.m))).TMR0IF then
            { c.Timer0IrqAck
                (c.Timer0Compless
                  (c.UartTxIntProcess
                    (c.UartRxIntProcess
                      (if b.USB_INTERRUPT then c.USBDeviceTasks s.m else s.m)))) with
              ActSenzTime := 1 }
          else
            c.UartTxIntProcess
              (c.UartRxIntProcess (if b.USB_INTERRUPT then c.USBDeviceTasks s.m else s.m))) := by
  have he := emitted_of_trace (isr_trace b c s)
  refine ⟨he, ?_, ?_, ?_, ?_, ?_, ?_⟩
  · rw [he]
    cases b.USB_INTERRUPT <;> cases (isrService b c s).m.TMR0IF <;> decide
  · rw [he]
    cases b.USB_INTERRUPT <;> cases (isrService b c s).m.TMR0IF <;> decide
  · rw [he]
    cases b.USB_INTERRUPT <;> cases (isrService b c s).m.TMR0IF <;> decide
  · rw [he]
    cases b.USB_INTERRUPT <;> cases (isrService b c s).m.TMR0IF <;> decide
  · cases hb : b.USB_INTERRUPT <;> simp [isrService, step, hb]
  · cases hb : b.USB_INTERRUPT
    · cases hf : (c.UartTxIntProcess (c.UartRxIntProcess s.m)).TMR0IF <;>
        simp [YourHighPriorityISRCode, observe, isrService, isrTimer, step, hb, hf]
    · cases hf : (c.UartTxIntProcess (c.UartRxIntProcess (c.USBDeviceTasks s.m))).TMR0IF <;>
        simp [YourHighPriorityISRCode, observe, isrService, isrTimer, step, hb, hf]

/-- C4, counterexample: with the timer-overflow flag set and the tick at 1 the
routine leaves the tick at 1, not at 2; and after two timer-overflow interrupts
from tick 0 the tick is 1, not 2. -/
theorem C4_counterexample :
    linkedSys.m.TMR0IF = true
      ∧ linkedSys.m.ActSenzTime = 1
      ∧ (YourHighPriorityISRCode interruptBuild quietCollaborators linkedSys).m.ActSenzTime
          ≠ (linkedSys.m.ActSenzTime + 1) % 256
      ∧ (timerOverflows interruptBuild quietCollaborators 2
            { m := machineWith 0x20 false false 0 false, trace := [] }).m.ActSenzTime
          ≠ 2 % 256 := by
  decide

/-- C4 (amended): an invocation of the high-priority routine that finds TMR0IF
set calls Timer0Compless, acknowledges the timer (Timer0IrqAck) and then stores
1 into ActSenzTime, whatever the tick was before; consequently, as long as the
servicing calls do not clear the flag, after any number k >= 1 of
timer-overflow interrupts the tick equals 1. -/
theorem C4_timer_sets_tick (b : Build) (c : Collaborators σ) (s : Sys σ)
    (hflag : (isrService b c s).m.TMR0IF = true) :
    emitted s (YourHighPriorityISRCode b c s) =
        (if b.USB_INTERRUPT then [Event.USBDeviceTasks] else []) ++
          [Event.UartRxIntProcess, Event.UartTxIntProcess, Event.testTMR0IF,
            Event.Timer0Compless, Event.Timer0IrqAck, Event.storeActSenzTime]
      ∧ (YourHighPriorityISRCode b c s).m =
          { c.Timer0IrqAck (c.Timer0Compless (isrService b c s).m) with ActSenzTime := 1 }
      ∧ (YourHighPriorityISRCode b c s).m.ActSenzTime = 1
      ∧ ((∀ t : Sys σ, t.m.TMR0IF = true → (isrService b c t).m.TMR0IF = true) →
          ∀ k, 0 < k → (timerOverflows b c k s).m.ActSenzTime = 1) := by
  have ht := isr_trace b c s
  rw [hflag] at ht
  have he := emitted_of_trace ht
  have hm : (YourHighPriorityISRCode b c s).m =
      { c.Timer0IrqAck (c.Timer0Compless (isrService b c s).m) with ActSenzTime := 1 } := by
    simp [YourHighPriorityISRCode, observe, isrTimer, step, hflag]
  refine ⟨?_, hm, ?_, ?_⟩
  · rw [he]; cases b.USB_INTERRUPT <;> simp
  · rw [hm]
  · intro hkeep k
    have hone : ∀ t : Sys σ, (timerOverflow b c t).m.ActSenzTime = 1 := by
      intro t
      have hf := hkeep { t with m := { t.m with TMR0IF := true } } rfl
      simp [timerOverflow, YourHighPriorityISRCode, observe, isrTimer, step, hf]
    have hlast : ∀ (n : Nat) (t : Sys σ),
        timerOverflows b c (n + 1) t = timerOverflow b c (timerOverflows b c n t) := by
      intro n
      induction n with
      | zero => intro t; rfl
      | succ n ih =>
        intro t
        show timerOverflows b c (n + 1) (timerOverflow b c t) = _
        rw [ih]
        rfl
    intro hk
    obtain ⟨n, rfl⟩ : ∃ n, k = n + 1 := ⟨k - 1, by omega⟩
    rw [hlast]
    exact hone _

/-- Witness for C4 (amended): the flag set, tick 1, interrupt build. -/
theorem C4_timer_sets_tick_witness :
    (isrService interruptBuild quietCollaborators linkedSys).m.TMR0IF = true
      ∧ (YourHighPriorityISRCode interruptBuild quietCollaborators linkedSys).m.ActSenzTime = 1 :=
  ⟨rfl, (C4_timer_sets_tick interruptBuild quietCollaborators linkedSys rfl).2.2.1⟩

/-- C8: an invocation of the high-priority routine that finds TMR0IF clear does
no timer handling: it calls neither Timer0Compless nor Timer0IrqAck and does
not store into ActSenzTime; the machine it leaves is the one the servicing
calls left, so the tick keeps the value it had before the invocation whenever
the servicing calls themselves do not write it. -/
theorem C8_no_timer_handling (b : Build) (c : Collaborators σ) (s : Sys σ)
    (hflag : (isrService b c s).m.TMR0IF = false) :
    emitted s (YourHighPriorityISRCode b c s) =
        (if b.USB_INTERRUPT then [Event.USBDeviceTasks] else []) ++
          [Event.UartRxIntProcess, Event.UartTxIntProcess, Event.testTMR0IF]
      ∧ Event.Timer0Compless ∉ emitted s (YourHighPriorityISRCode b c s)
      ∧ Event.Timer0IrqAck ∉ emitted s (YourHighPriorityISRCode b c s)
      ∧ Event.storeActSenzTime ∉ emitted s (YourHighPriorityISRCode b c s)
      ∧ (YourHighPriorityISRCode b c s).m = (isrService b c s).m
      ∧ ((∀ m, (c.USBDeviceTasks m).ActSenzTime = m.ActSenzTime) →
          (∀ m, (c.UartRxIntProcess m).ActSenzTime = m.ActSenzTime) →
          (∀ m, (c.UartTxIntProcess m).ActSenzTime = m.ActSenzTime) →
          (YourHighPriorityISRCode b c s).m.ActSenzTime = s.m.ActSenzTime) := by
  have ht := isr_trace b c s
  rw [hflag] at ht
  have he := emitted_of_trace ht
  have hm : (YourHighPriorityISRCode b c s).m = (isrService b c s).m := by
    simp [YourHighPriorityISRCode, observe, hflag]
  refine ⟨?_, ?_, ?_, ?_, hm, ?_⟩
  · rw [he]; cases b.USB_INTERRUPT <;> simp
  · rw [he]; cases b.USB_INTERRUPT <;> decide
  · rw [he]; cases b.USB_INTERRUPT <;> decide
  · rw [he]; cases b.USB_INTERRUPT <;> decide
  · intro h1 h2 h3
    rw [hm]
    cases hb : b.USB_INTERRUPT <;> simp [isrService, step, hb, h1, h2, h3]

/-- Witness for C8: no timer overflow pending, tick 7, interrupt build. -/
theorem C8_no_timer_handling_witness :
    (isrService interruptBuild quietCollaborators suspendedSys).m.TMR0IF = false
      ∧ (YourHighPriorityISRCode interruptBuild quietCollaborators suspendedSys).m.ActSenzTime
          = 7 :=
  ⟨rfl,
    (C8_no_timer_handling interruptBuild quietCollaborators suspendedSys rfl).2.2.2.2.2
      (fun _ => rfl) (fun _ => rfl) (fun _ => rfl)⟩

/-- C9: the high-priority routine is a straight line of at most five calls: in
every invocation each collaborator (and every other step) occurs at most once,
the routine makes at most seven steps, and the machine it returns is a finite
composition of its collaborators, so it returns whenever they do; the
low-priority routine returns the state it was given. -/
theorem C9_isr_bounded (b : Build) (c : Collaborators σ) (s : Sys σ) :
    (∀ e : Event, (emitted s (YourHighPriorityISRCode b c s)).count e ≤ 1)
      ∧ (emitted s (YourHighPriorityISRCode b c s)).length ≤ 7
      ∧ (YourHighPriorityISRCode b c s).m =
          (let m1 := if b.USB_INTERRUPT then c.USBDeviceTasks s.m else s.m
           let m2 := c.UartTxIntProcess (c.UartRxIntProcess m1)
           if m2.TMR0IF then
             { c.Timer0IrqAck (c.Timer0Compless m2) with ActSenzTime := 1 }
           else m2)
      ∧ YourLowPriorityISRCode s = s := by
  have he := emitted_of_trace (isr_trace b c s)
  refine ⟨?_, ?_, ?_, rfl⟩
  · intro e
    rw [he]
    cases b.USB_INTERRUPT <;> cases (isrService b c s).m.TMR0IF <;> cases e <;> decide
  · rw [he]
    cases b.USB_INTERRUPT <;> cases (isrService b c s).m.TMR0IF <;> decide
  · cases hb : b.USB_INTERRUPT
    · cases hf : (c.UartTxIntProcess (c.UartRxIntProcess s.m)).TMR0IF <;>
        simp [YourHighPriorityISRCode, observe, isrService, isrTimer, step, hb, hf]
    · cases hf : (c.UartTxIntProcess (c.UartRxIntProcess (c.USBDeviceTasks s.m))).TMR0IF <;>
        simp [YourHighPriorityISRCode, observe, isrService, isrTimer, step, hb, hf]

/-! ## Runs of the main loop -/

theorem mainLoopBody_events (b : Build) (c : Collaborators σ) (s : Sys σ) :
    (mainLoopBody b c s).trace =
      s.trace ++ iterationEvents b (linkUp b (loopPoll b c s).m) := by
  rw [mainLoopBody_trace]
  rfl

theorem mainLoop_trace (b : Build) (c : Collaborators σ)
    (ps : List (Machine σ → Machine σ)) (s : Sys σ) :
    (mainLoop b c ps s).trace =
      s.trace ++
        ((linkReadings b c ps s).map (fun r => iterationEvents b (readingUp b r))).flatten := by
  induction ps generalizing s with
  | nil => simp [mainLoop, linkReadings]
  | cons p ps ih =>
    simp only [mainLoop, linkReadings, List.map_cons, List.flatten_cons]
    rw [ih, mainLoopBody_events, List.append_assoc]
    rfl

theorem pipelineCalls_iterationEvents (b : Build) (up : Bool) :
    pipelineCalls (iterationEvents b up) =
      if up then [Event.UsbToMidiProcess, Event.MidiToUsbProcess] else [] := by
  cases up <;> cases hb : b.USB_POLLING <;> simp [pipelineCalls, iterationEvents, hb]

theorem count_iterationEvents (b : Build) (up : Bool) :
    (iterationEvents b up).count Event.UsbToMidiProcess = (if up then 1 else 0)
      ∧ (iterationEvents b up).count Event.MidiToUsbProcess = (if up then 1 else 0)
      ∧ (iterationEvents b up).count Event.USBDeviceAttach = 0 := by
  cases up <;> cases hb : b.USB_POLLING <;> simp [iterationEvents, hb]

theorem linkReadings_length (b : Build) (c : Collaborators σ)
    (ps : List (Machine σ → Machine σ)) (s : Sys σ) :
    (linkReadings b c ps s).length = ps.length := by
  induction ps generalizing s with
  | nil => rfl
  | cons p ps ih => simp [linkReadings, ih]

/-- C7: over any number of consecutive iterations, the pipeline calls made by
the main loop are, iteration by iteration in order, UsbToMidiProcess then
MidiToUsbProcess when the link state read in that iteration is
configured-and-not-suspended, and nothing otherwise; each pipeline is called as
many times as there are such readings; and every finite sequence of readings
occurs (in a build without USB_POLLING, by letting the link state change
between iterations). The calls are really made: the machine after the run is
the entry machine taken through the iterations in order, each applying
UsbToMidiProcess then MidiToUsbProcess to the machine with the LED lit when
the link state it reads is up, and only clearing the LED otherwise; and the
reading of each iteration is the link state of the machine that iteration
finds, which earlier iterations influence only through that machine. -/
theorem C7_no_hysteresis (b : Build) (c : Collaborators σ)
    (ps : List (Machine σ → Machine σ)) (s : Sys σ) :
    (linkReadings b c ps s).length = ps.length
      ∧ pipelineCalls (emitted s (mainLoop b c ps s)) =
          ((linkReadings b c ps s).map (fun r =>
            if readingUp b r then [Event.UsbToMidiProcess, Event.MidiToUsbProcess]
            else [])).flatten
      ∧ (emitted s (mainLoop b c ps s)).count Event.UsbToMidiProcess =
          ((linkReadings b c ps s).filter (readingUp b)).length
      ∧ (emitted s (mainLoop b c ps s)).count Event.MidiToUsbProcess =
          ((linkReadings b c ps s).filter (readingUp b)).length
      ∧ (b.USB_POLLING = false →
          ∀ rs : List (Nat × Bool), linkReadings b c (rs.map setLink) s = rs)
      ∧ (mainLoop b c ps s).m =
          ps.foldl
            (fun m p =>
              if linkUp b (if b.USB_POLLING then c.USBDeviceTasks (p m) else p m) then
                c.MidiToUsbProcess
                  (c.UsbToMidiProcess
                    { (if b.USB_POLLING then c.USBDeviceTasks (p m) else p m) with
                      LEDUSB := true })
              else
                { (if b.USB_POLLING then c.USBDeviceTasks (p m) else p m) with
                  LEDUSB := false })
            s.m
      ∧ (∀ (ps₁ : List (Machine σ → Machine σ)) (p : Machine σ → Machine σ)
            (ps₂ : List (Machine σ → Machine σ)), ps = ps₁ ++ p :: ps₂ →
          (linkReadings b c ps s)[ps₁.length]? =
            some
              ((if b.USB_POLLING then c.USBDeviceTasks (p (mainLoop b c ps₁ s).m)
                  else p (mainLoop b c ps₁ s).m).USBDeviceState,
                (if b.USB_POLLING then c.USBDeviceTasks (p (mainLoop b c ps₁ s).m)
                  else p (mainLoop b c ps₁ s).m).USBSuspendControl)) := by
  have he := emitted_of_trace (mainLoop_trace b c ps s)
  have hfold : ∀ (qs : List (Machine σ → Machine σ)) (t : Sys σ),
      (mainLoop b c qs t).m =
        qs.foldl
          (fun m p =>
            if linkUp b (if b.USB_POLLING then c.USBDeviceTasks (p m) else p m) then
              c.MidiToUsbProcess
                (c.UsbToMidiProcess
                  { (if b.USB_POLLING then c.USBDeviceTasks (p m) else p m) with
                    LEDUSB := true })
            else
              { (if b.USB_POLLING then c.USBDeviceTasks (p m) else p m) with
                LEDUSB := false })
          t.m := by
    intro qs
    induction qs with
    | nil => intro t; rfl
    | cons q qs ih =>
      intro t
      simp only [mainLoop, List.foldl_cons]
      rw [ih]
      congr 1
      cases hp : b.USB_POLLING
      · cases hl : linkUp b (q t.m) <;>
          simp [mainLoopBody, observe, loopPoll, loopLinked, loopIdle, step, hp, hl]
      · cases hl : linkUp b (c.USBDeviceTasks (q t.m)) <;>
          simp [mainLoopBody, observe, loopPoll, loopLinked, loopIdle, step, hp, hl]
  refine ⟨linkReadings_length b c ps s, ?_, ?_, ?_, ?_, hfold ps s, ?_⟩
  · rw [he]
    generalize linkReadings b c ps s = rs
    induction rs with
    | nil => rfl
    | cons r rs ih =>
      simp only [List.map_cons, List.flatten_cons]
      have happ : ∀ xs ys : List Event,
          pipelineCalls (xs ++ ys) = pipelineCalls xs ++ pipelineCalls ys := by
        intro xs ys
        simp [pipelineCalls]
      rw [happ, ih, pipelineCalls_iterationEvents]
  · rw [he]
    generalize linkReadings b c ps s = rs
    induction rs with
    | nil => rfl
    | cons r rs ih =>
      simp only [List.map_cons, List.flatten_cons, List.count_append, ih,
        (count_iterationEvents b (readingUp b r)).1, List.filter_cons]
      cases readingUp b r
      · simp
      · simp; omega
  · rw [he]
    generalize linkReadings b c ps s = rs
    induction rs with
    | nil => rfl
    | cons r rs ih =>
      simp only [List.map_cons, List.flatten_cons, List.count_append, ih,
        (count_iterationEvents b (readingUp b r)).2.1, List.filter_cons]
      cases readingUp b r
      · simp
      · simp; omega
  · intro hb rs
    clear he
    induction rs generalizing s with
    | nil => rfl
    | cons r rs ih =>
      simp only [List.map_cons, linkReadings, ih]
      simp [loopPoll, hb, setLink]
  · intro ps₁ p ps₂ hps
    subst hps
    clear he
    induction ps₁ generalizing s with
    | nil =>
      cases hp : b.USB_POLLING <;> simp [linkReadings, mainLoop, loopPoll, step, hp]
    | cons q qs ih =>
      have hstep := ih (mainLoopBody b c { s with m := q s.m })
      simpa [linkReadings, mainLoop] using hstep

/-- C10: where the USB stack is serviced depends on the build. With
USB_INTERRUPT the high-priority routine calls USBDeviceTasks exactly once, as
its first step, before the UART servicing, and main() calls USBDeviceAttach
once, before the loop; without USB_INTERRUPT the routine never calls
USBDeviceTasks; with USB_POLLING every iteration of the main loop calls
USBDeviceTasks exactly once, before it reads the link state, and takes the
LINKED / NOT LINKED decision on the state that call returned. The calls are
really made: with USB_INTERRUPT the UART routines run on the machine
USBDeviceTasks returned, and the loop of main() starts on the machine
USBDeviceAttach returned from the one InitializeSystem returned; without
USB_INTERRUPT the UART routines run on the entry machine. -/
theorem C10_usb_servicing (b : Build) (c : Collaborators σ) (s : Sys σ) :
    (b.USB_INTERRUPT = true →
        (∃ rest, emitted s (YourHighPriorityISRCode b c s) =
            [Event.USBDeviceTasks, Event.UartRxIntProcess, Event.UartTxIntProcess] ++ rest)
        ∧ (emitted s (YourHighPriorityISRCode b c s)).count Event.USBDeviceTasks = 1
        ∧ emitted s (mainEntry b c s) = [Event.InitializeSystem, Event.USBDeviceAttach]
        ∧ (∀ ps, (emitted s (main b c ps s)).count Event.USBDeviceAttach = 1)
        ∧ (YourHighPriorityISRCode b c s).m =
            (if (c.UartTxIntProcess
                  (c.UartRxIntProcess (c.USBDeviceTasks s.m))).TMR0IF then
              { c.Timer0IrqAck
                  (c.Timer0Compless
                    (c.UartTxIntProcess (c.UartRxIntProcess (c.USBDeviceTasks s.m)))) with
                ActSenzTime := 1 }
            else c.UartTxIntProcess (c.UartRxIntProcess (c.USBDeviceTasks s.m)))
        ∧ (mainEntry b c s).m = c.USBDeviceAttach (c.InitializeSystem s.m)
        ∧ (∀ ps, ∃ rest,
            emitted s (main b c ps s) =
                [Event.InitializeSystem, Event.USBDeviceAttach] ++ rest
              ∧ Event.USBDeviceAttach ∉ rest
              ∧ Event.InitializeSystem ∉ rest
              ∧ (main b c ps s).m =
                  ps.foldl
                    (fun m p =>
                      if linkUp b (if b.USB_POLLING then c.USBDeviceTasks (p m) else p m) then
                        c.MidiToUsbProcess
                          (c.UsbToMidiProcess
                            { (if b.USB_POLLING then c.USBDeviceTasks (p m) else p m) with
                              LEDUSB := true })
                      else
                        { (if b.USB_POLLING then c.USBDeviceTasks (p m) else p m) with
                          LEDUSB := false })
                    (c.USBDeviceAttach (c.InitializeSystem s.m))))
      ∧ (b.USB_INTERRUPT = false →
          Event.USBDeviceTasks ∉ emitted s (YourHighPriorityISRCode b c s)
          ∧ (YourHighPriorityISRCode b c s).m =
              (if (c.UartTxIntProcess (c.UartRxIntProcess s.m)).TMR0IF then
                { c.Timer0IrqAck
                    (c.Timer0Compless (c.UartTxIntProcess (c.UartRxIntProcess s.m))) with
                  ActSenzTime := 1 }
              else c.UartTxIntProcess (c.UartRxIntProcess s.m)))
      ∧ (b.USB_POLLING = true →
          (∃ rest, emitted s (mainLoopBody b c s) =
              [Event.USBDeviceTasks, Event.readLinkState] ++ rest)
          ∧ (emitted s (mainLoopBody b c s)).count Event.USBDeviceTasks = 1
          ∧ (Event.UsbToMidiProcess ∈ emitted s (mainLoopBody b c s) ↔
              linkUp b (c.USBDeviceTasks s.m) = true)
          ∧ (Event.MidiToUsbProcess ∈ emitted s (mainLoopBody b c s) ↔
              linkUp b (c.USBDeviceTasks s.m) = true)
          ∧ (mainLoopBody b c s).m =
              (if linkUp b (c.USBDeviceTasks s.m) then
                c.MidiToUsbProcess
                  (c.UsbToMidiProcess { c.USBDeviceTasks s.m with LEDUSB := true })
              else { c.USBDeviceTasks s.m with LEDUSB := false })) := by
  have hisr := emitted_of_trace (isr_trace b c s)
  have hbody := emitted_of_trace (mainLoopBody_trace b c s)
  have hfold : ∀ (qs : List (Machine σ → Machine σ)) (t : Sys σ),
      (mainLoop b c qs t).m =
        qs.foldl
          (fun m p =>
            if linkUp b (if b.USB_POLLING then c.USBDeviceTasks (p m) else p m) then
              c.MidiToUsbProcess
                (c.UsbToMidiProcess
                  { (if b.USB_POLLING then c.USBDeviceTasks (p m) else p m) with
                    LEDUSB := true })
            else
              { (if b.USB_POLLING then c.USBDeviceTasks (p m) else p m) with
                LEDUSB := false })
          t.m := by
    intro qs
    induction qs with
    | nil => intro t; rfl
    | cons q qs ih =>
      intro t
      simp only [mainLoop, List.foldl_cons]
      rw [ih]
      congr 1
      cases hp : b.USB_POLLING
      · cases hl : linkUp b (q t.m) <;>
          simp [mainLoopBody, observe, loopPoll, loopLinked, loopIdle, step, hp, hl]
      · cases hl : linkUp b (c.USBDeviceTasks (q t.m)) <;>
          simp [mainLoopBody, observe, loopPoll, loopLinked, loopIdle, step, hp, hl]
  have hzero : ∀ rs : List (Nat × Bool),
      (List.map (fun r => iterationEvents b (readingUp b r)) rs).flatten.count
          Event.USBDeviceAttach = 0
        ∧ (List.map (fun r => iterationEvents b (readingUp b r)) rs).flatten.count
          Event.InitializeSystem = 0 := by
    intro rs
    induction rs with
    | nil => exact ⟨rfl, rfl⟩
    | cons r rs ih =>
      have hinit : (iterationEvents b (readingUp b r)).count Event.InitializeSystem = 0 := by
        cases readingUp b r <;> cases hb : b.USB_POLLING <;> simp [iterationEvents, hb]
      simp [List.count_append, ih.1, ih.2, (count_iterationEvents b (readingUp b r)).2.2,
        hinit]
  refine ⟨?_, ?_, ?_⟩
  · intro hb
    have hentry : (mainEntry b c s).trace =
        s.trace ++ [Event.InitializeSystem, Event.USBDeviceAttach] := by
      simp [mainEntry, step, hb]
    have hentrym : (mainEntry b c s).m = c.USBDeviceAttach (c.InitializeSystem s.m) := by
      simp [mainEntry, step, hb]
    have hmain : ∀ ps, emitted s (main b c ps s) =
        [Event.InitializeSystem, Event.USBDeviceAttach] ++
          (List.map (fun r => iterationEvents b (readingUp b r))
            (linkReadings b c ps (mainEntry b c s))).flatten := by
      intro ps
      have hrun := mainLoop_trace b c ps (mainEntry b c s)
      rw [hentry, List.append_assoc] at hrun
      exact emitted_of_trace hrun
    refine ⟨?_, ?_, ?_, ?_, ?_, hentrym, ?_⟩
    · rw [hisr, hb]
      exact ⟨_, rfl⟩
    · rw [hisr, hb]
      cases (isrService b c s).m.TMR0IF <;> decide
    · exact emitted_of_trace hentry
    · intro ps
      rw [hmain, List.count_append, (hzero _).1]
      decide
    · cases hf : (c.UartTxIntProcess (c.UartRxIntProcess (c.USBDeviceTasks s.m))).TMR0IF <;>
        simp [YourHighPriorityISRCode, observe, isrService, isrTimer, step, hb, hf]
    · intro ps
      refine ⟨_, hmain ps, List.count_eq_zero.mp (hzero _).1,
        List.count_eq_zero.mp (hzero _).2, ?_⟩
      show (mainLoop b c ps (mainEntry b c s)).m = _
      rw [hfold, hentrym]
  · intro hb
    refine ⟨?_, ?_⟩
    · rw [hisr, hb]
      cases (isrService b c s).m.TMR0IF <;> decide
    · cases hf : (c.UartTxIntProcess (c.UartRxIntProcess s.m)).TMR0IF <;>
        simp [YourHighPriorityISRCode, observe, isrService, isrTimer, step, hb, hf]
  · intro hb
    have hpoll : (loopPoll b c s).m = c.USBDeviceTasks s.m := by
      simp [loopPoll, hb, step]
    rw [hpoll] at hbody
    refine ⟨?_, ?_, ?_, ?_, ?_⟩
    · rw [hbody, hb]
      exact ⟨_, rfl⟩
    · rw [hbody, hb]
      cases linkUp b (c.USBDeviceTasks s.m) <;> decide
    · rw [hbody, hb]
      cases linkUp b (c.USBDeviceTasks s.m) <;> decide
    · rw [hbody, hb]
      cases linkUp b (c.USBDeviceTasks s.m) <;> decide
    · cases hl : linkUp b (c.USBDeviceTasks s.m) <;>
        simp [mainLoopBody, observe, loopLinked, loopIdle, step, hpoll, hl]

/-- Witness for C10: the three build conditions are met by concrete builds, and
there the servicing call is where the statement puts it. -/
theorem C10_usb_servicing_witness :
    interruptBuild.USB_INTERRUPT = true
      ∧ pollingBuild.USB_INTERRUPT = false
      ∧ pollingBuild.USB_POLLING = true
      ∧ (emitted linkedSys
            (YourHighPriorityISRCode interruptBuild quietCollaborators linkedSys)).count
          Event.USBDeviceTasks = 1
      ∧ Event.USBDeviceTasks ∉
          emitted linkedSys (YourHighPriorityISRCode pollingBuild quietCollaborators linkedSys)
      ∧ (emitted linkedSys (mainLoopBody pollingBuild quietCollaborators linkedSys)).count
          Event.USBDeviceTasks = 1 :=
  ⟨rfl, rfl, rfl,
    ((C10_usb_servicing interruptBuild quietCollaborators linkedSys).1 rfl).2.1,
    ((C10_usb_servicing pollingBuild quietCollaborators linkedSys).2.1 rfl).1,
    ((C10_usb_servicing pollingBuild quietCollaborators linkedSys).2.2 rfl).2.1⟩

/-! ## The packet codec -/

set_option maxRecDepth 100000 in
theorem messageLength_table :
    ∀ s, s < 256 → messageLength s = 0 ∨ codeIndexLength (codeIndexOf s) = messageLength s := by
  decide

theorem messageLength_bound {s : Nat} (h : messageLength s ≠ 0) : 0x80 ≤ s ∧ s < 0x100 := by
  unfold messageLength at h
  split_ifs at h <;> omega

theorem codeIndexLength_codeIndexOf {s : Nat} (h : messageLength s ≠ 0) :
    codeIndexLength (codeIndexOf s) = messageLength s := by
  rcases messageLength_table s (messageLength_bound h).2 with h0 | h1
  · exact absurd h0 h
  · exact h1

theorem encodeByte_data (cable : Nat) (c : Codec) {b : Nat} (h : b < 0x80) :
    encodeByte cable c b =
      match c.phase with
      | .IDLE => (c, [])
      | .EXPECT_DATA1 =>
        if messageLength c.status = 2 then
          (Codec.afterMessage c.status, [⟨cable, codeIndexOf c.status, c.status, b, 0⟩])
        else ({ c with phase := .EXPECT_DATA2, data1 := b }, [])
      | .EXPECT_DATA2 =>
        (Codec.afterMessage c.status, [⟨cable, codeIndexOf c.status, c.status, c.data1, b⟩])
      | .IN_SYSEX =>
        match c.sysex with
        | [x, y] => ({ c with sysex := [] }, [⟨cable, 0x4, x, y, b⟩])
        | xs => ({ c with sysex := xs ++ [b] }, []) := by
  unfold encodeByte
  rw [if_neg (by omega), if_neg (by omega), if_neg (by omega), if_neg (by omega)]

theorem encodeByte_status (cable : Nat) (c : Codec) {s : Nat} (h : 2 ≤ messageLength s) :
    encodeByte cable c s = ({ phase := .EXPECT_DATA1, status := s, data1 := 0, sysex := [] }, []) := by
  have hb := messageLength_bound (s := s) (by omega)
  have h1 : ¬ 0xF8 ≤ s := by
    intro h8
    have : messageLength s = 1 := by
      unfold messageLength
      split_ifs <;> omega
    omega
  have h2 : s ≠ 0xF0 := by
    rintro rfl
    revert h; decide
  have h3 : s ≠ 0xF7 := by
    rintro rfl
    revert h; decide
  unfold encodeByte
  rw [if_neg h1, if_neg h2, if_neg h3, if_pos hb.1]
  split
  · omega
  · omega
  · rfl


theorem codeIndexOf_lt {s : Nat} (h : s < 0x100) : codeIndexOf s < 16 := by
  unfold codeIndexOf
  split_ifs <;> omega

theorem encode_valid (cable : Nat) (m : List Nat) (hvalid : validMessage m = true) :
    ∃ p : Packet, encode m cable = [p] ∧ p.cable = cable ∧ p.code_index < 16 ∧ decode p = m := by
  match m, hvalid with
  | [s], h =>
    have h1 : messageLength s = 1 := by simpa [validMessage] using h
    have hb := messageLength_bound (s := s) (by omega)
    by_cases h8 : 0xF8 ≤ s
    · exact ⟨⟨cable, 0xF, s, 0, 0⟩,
        by simp [encode, encodeRun, encodeByte, h8], rfl, by simp, rfl⟩
    · have h6 : s = 0xF6 := by
        unfold messageLength at h1
        split_ifs at h1 <;> omega
      subst h6
      exact ⟨⟨cable, 0x5, 0xF6, 0, 0⟩, rfl, rfl, by simp, rfl⟩
  | [s, d], h =>
    simp only [validMessage, Bool.or_eq_true, Bool.and_eq_true, decide_eq_true_eq,
      beq_iff_eq] at h
    rcases h with ⟨h2, hd⟩ | ⟨rfl, rfl⟩
    · have hl := codeIndexLength_codeIndexOf (s := s) (by omega)
      have hb := messageLength_bound (s := s) (by omega)
      refine ⟨⟨cable, codeIndexOf s, s, d, 0⟩, ?_, rfl, codeIndexOf_lt hb.2, ?_⟩
      · simp [encode, encodeRun, encodeByte_status cable Codec.idle (by omega : 2 ≤ messageLength s),
          encodeByte_data cable _ hd, h2]
      · simp [decode, hl, h2]
    · exact ⟨⟨cable, 0x6, 0xF0, 0xF7, 0⟩, rfl, rfl, by simp, rfl⟩
  | [s, d, e], h =>
    simp only [validMessage, Bool.or_eq_true, Bool.and_eq_true, decide_eq_true_eq,
      beq_iff_eq] at h
    rcases h with ⟨⟨h3, hd⟩, he⟩ | ⟨⟨rfl, hd⟩, rfl⟩
    · have hl := codeIndexLength_codeIndexOf (s := s) (by omega)
      have hb := messageLength_bound (s := s) (by omega)
      refine ⟨⟨cable, codeIndexOf s, s, d, e⟩, ?_, rfl, codeIndexOf_lt hb.2, ?_⟩
      · simp [encode, encodeRun, encodeByte_status cable Codec.idle (by omega : 2 ≤ messageLength s),
          encodeByte_data cable _ hd, encodeByte_data cable _ he, h3]
      · simp [decode, hl, h3]
    · refine ⟨⟨cable, 0x7, 0xF0, d, 0xF7⟩, ?_, rfl, by simp, rfl⟩
      simp [encode, encodeRun, encodeByte_data cable _ hd]
      simp [encodeByte, sysexEnd]

/-- C5: for every valid MIDI message m of 1 to 3 bytes, decoding the packets
that encode produces for m with cable number CABLENUM = 0 gives back exactly m,
both on the packets as records and on their 4-byte wire form. -/
theorem C5_roundtrip (m : List Nat) (hvalid : validMessage m = true) :
    decodeAll (encode m CABLENUM) = m
      ∧ decodeWire ((encode m CABLENUM).map Packet.bytes).flatten = m := by
  obtain ⟨p, hp, hcable, hcin, hdec⟩ := encode_valid CABLENUM m hvalid
  rw [hp]
  refine ⟨by simp [decodeAll, hdec], ?_⟩
  have h1 : (p.cable * 16 + p.code_index) / 16 = p.cable := by omega
  have h2 : (p.cable * 16 + p.code_index) % 16 = p.code_index := by omega
  simp only [List.map_cons, List.map_nil, List.flatten_cons, List.flatten_nil, Packet.bytes,
    List.append_nil, decodeWire, h1, h2]
  exact hdec

/-- Witness for C5: a note-on message. -/
theorem C5_roundtrip_witness :
    validMessage [0x90, 0x40, 0x7F] = true
      ∧ decodeAll (encode [0x90, 0x40, 0x7F] CABLENUM) = [0x90, 0x40, 0x7F] :=
  ⟨rfl, (C5_roundtrip [0x90, 0x40, 0x7F] rfl).1⟩

/-! ## The device-to-host pipeline -/

theorem stageBytes_usbIn (rx : List Nat) (br : Bridge) :
    (stageBytes rx br).usbIn = br.usbIn := by
  induction rx generalizing br with
  | nil => rfl
  | cons x rx ih =>
    unfold stageBytes
    split
    · rfl
    · rw [ih]

theorem handleBusy_of_inv {m : Machine Bridge} (hinv : bridgeInv m)
    (h : handleBusy m = false) : m.ext.usbIn.inFlight = false := by
  cases hf : m.ext.usbIn.inFlight
  · rfl
  · have hne := hinv.2 hf
    simp [handleBusy, hf, hne] at h

theorem MidiToUsbProcessSpec_inv {m : Machine Bridge} (hinv : bridgeInv m) :
    bridgeInv (MidiToUsbProcessSpec m) := by
  unfold MidiToUsbProcessSpec
  simp only
  split
  · rename_i hc
    have hbusy : handleBusy m = false := by
      simp only [Bool.and_eq_true, Bool.not_eq_true'] at hc
      exact hc.2
    have hfl := handleBusy_of_inv hinv hbusy
    simp [bridgeInv, InTransport.submit, stageBytes_usbIn, hfl, hinv.1]
  · exact ⟨by simpa [stageBytes_usbIn] using hinv.1, by simpa [stageBytes_usbIn] using hinv.2⟩

theorem MidiToUsbProcessSpec_submits {m : Machine Bridge} (hinv : bridgeInv m)
    (h : (MidiToUsbProcessSpec m).ext.usbIn.accepted ≠ m.ext.usbIn.accepted) :
    m.ext.usbIn.inFlight = false := by
  unfold MidiToUsbProcessSpec at h
  simp only at h
  split at h
  · rename_i hc
    simp only [Bool.and_eq_true, Bool.not_eq_true'] at hc
    exact handleBusy_of_inv hinv hc.2
  · simp [stageBytes_usbIn] at h

theorem loopPoll_bridge (b : Build) (s : Sys Bridge) :
    (loopPoll b bridgeCollaborators s).m = s.m := by
  cases hb : b.USB_POLLING <;> simp [loopPoll, hb, step, bridgeCollaborators]

theorem loopIteration_machine (b : Build) (s : Sys Bridge) :
    (happen b Happening.loopIteration s).m =
      if linkUp b s.m then MidiToUsbProcessSpec { s.m with LEDUSB := true }
      else { s.m with LEDUSB := false } := by
  show (mainLoopBody b bridgeCollaborators s).m = _
  rw [mainLoopBody_machine, loopPoll_bridge]
  rfl

theorem happen_inv (b : Build) (h : Happening) {s : Sys Bridge} (hinv : bridgeInv s.m) :
    bridgeInv (happen b h s).m := by
  cases h with
  | serialByte x => exact hinv
  | inTransferDone => exact ⟨hinv.1, by simp [happen, InTransport.complete]⟩
  | linkChange st su => exact hinv
  | loopIteration =>
    rw [loopIteration_machine]
    split
    · exact MidiToUsbProcessSpec_inv hinv
    · exact hinv

/-- C6: in every state the bridge reaches from a start with no IN transfer in
flight, whatever the serial input, the transfer completions and the link
changes between iterations of the main loop, the mock transport has rejected
no submission; and an iteration that does submit the staging buffer starts
from a state whose previous IN transfer has completed. -/
theorem C6_no_submit_in_flight (b : Build) (hs : List Happening) (s0 : Sys Bridge)
    (hidle : s0.m.ext.usbIn.inFlight = false) (hrej : s0.m.ext.usbIn.rejected = 0) :
    (bridgeRun b hs s0).m.ext.usbIn.rejected = 0
      ∧ ((happen b Happening.loopIteration (bridgeRun b hs s0)).m.ext.usbIn.accepted
            ≠ (bridgeRun b hs s0).m.ext.usbIn.accepted →
          (bridgeRun b hs s0).m.ext.usbIn.inFlight = false)
      ∧ (happen b Happening.loopIteration (bridgeRun b hs s0)).m.ext.usbIn.rejected = 0 := by
  have h0 : bridgeInv s0.m := ⟨hrej, by simp [hidle]⟩
  have hinv : bridgeInv (bridgeRun b hs s0).m := by
    clear hidle hrej
    induction hs generalizing s0 with
    | nil => exact h0
    | cons h hs ih => exact ih _ (happen_inv b h h0)
  refine ⟨hinv.1, ?_, (happen_inv b Happening.loopIteration hinv).1⟩
  intro hne
  rw [loopIteration_machine] at hne
  split at hne
  · exact MidiToUsbProcessSpec_submits (m := { (bridgeRun b hs s0).m with LEDUSB := true }) hinv hne
  · exact absurd rfl hne

/-- Witness for C6: from power-up, a note-on arrives while the link is up and
the loop runs twice before and once after the transfer completes. -/
theorem C6_no_submit_in_flight_witness :
    bridgeInit.m.ext.usbIn.inFlight = false
      ∧ bridgeInit.m.ext.usbIn.rejected = 0
      ∧ (bridgeRun interruptBuild
            [Happening.linkChange 0x20 false, Happening.serialByte 0x90,
              Happening.serialByte 0x40, Happening.serialByte 0x7F, Happening.loopIteration,
              Happening.serialByte 0xF8, Happening.loopIteration, Happening.inTransferDone,
              Happening.loopIteration]
            bridgeInit).m.ext.usbIn.rejected = 0 :=
  ⟨rfl, rfl, (C6_no_submit_in_flight interruptBuild _ bridgeInit rfl rfl).1⟩

end MidiUsb
